import Mathlib

/-!
Shallow embedding of the Elite Dangerous purchase-tracker ingestion engine
(`src/app.py`). The embedding covers `parse_log_file`, `parse_cargo_file`,
`get_total_cargo_count` and the event-dispatch loop of `process_logs`,
together with the persisted state (the `purchases` and `processed_logs`
tables) and the run-scoped state (`docked_station`, `cargo_count`).

JSON records are modelled as structures of optional fields; `dict[k]`
access (which raises `KeyError` in Python) is modelled in the `Except`
monad, while `dict.get(k, default)` is `Option.getD`. The SQLite purchase
table is a list of records in rowid (insertion) order; `UPDATE ... LIMIT 1`
updates the first matching record in that order.
-/

namespace EliteTracker

/-- One row of the `purchases` table (src/app.py lines 23-29).
`delivered`/`sold` have SQL default 0 (false); the remaining disposition
columns default to NULL, modelled as `Option`. -/
structure Purchase where
  id : Nat
  item : String
  count : Int
  buy_price : Int
  total_cost : Int
  bought_at : String
  bought_system : String
  bought_time : String
  delivered : Bool
  delivered_to : Option String
  delivered_time : Option String
  sold : Bool
  sold_at : Option String
  sold_time : Option String
  deriving DecidableEq, Repr

/-- The `docked_station` dict built at src/app.py lines 114-119. -/
structure DockedStation where
  StationName : String
  StarSystem : String
  SystemAddress : Int
  timestamp : String
  deriving DecidableEq, Repr

/-- One entry of the `Inventory` list of Cargo.json; `item.get("Count", 0)`
is used at src/app.py line 85, so `Count` may be absent. -/
structure CargoItem where
  Count : Option Int
  deriving DecidableEq, Repr

/-- Parsed content of Cargo.json: a mapping with an `Inventory` list
(src/app.py lines 72-87). -/
structure CargoData where
  Inventory : List CargoItem
  deriving DecidableEq, Repr

/-- A decoded journal event: a JSON mapping with optional fields. Every
field the dispatcher reads is present, as `Option`. `cargoFile` carries
the content of Cargo.json as read on demand when this event fires
(src/app.py line 173 re-reads the file per Cargo event); `none` means the
file was missing or unparseable. -/
structure Event where
  event : Option String := none
  timestamp : Option String := none
  MarketID : Option Int := none
  StationName : Option String := none
  StarSystem : Option String := none
  SystemAddress : Option Int := none
  Type_Localised : Option String := none
  TypeRaw : Option String := none
  Count : Option Int := none
  BuyPrice : Option Int := none
  TotalCost : Option Int := none
  CargoType_Localised : Option String := none
  CargoType : Option String := none
  EndMarketID : Option Int := none
  UpdateType : Option String := none
  cargoFile : Option CargoData := none
  deriving DecidableEq, Repr

/-- The persisted database state: `purchases` rows in rowid order,
the AUTOINCREMENT counter, and the `processed_logs` filenames. -/
structure Db where
  purchases : List Purchase
  nextId : Nat
  processedLogs : List String
  deriving DecidableEq, Repr

/-- The state threaded through one `process_logs` call: the database plus
the run-scoped variables `docked_station` and `cargo_count`
(src/app.py lines 93-94), which start at `None` each run. -/
structure RunState where
  purchases : List Purchase
  nextId : Nat
  processedLogs : List String
  dockedStation : Option DockedStation
  cargoCount : Option Int
  deriving DecidableEq, Repr

def RunState.ofDb (db : Db) : RunState :=
  { purchases := db.purchases, nextId := db.nextId,
    processedLogs := db.processedLogs, dockedStation := none, cargoCount := none }

def RunState.toDb (s : RunState) : Db :=
  { purchases := s.purchases, nextId := s.nextId, processedLogs := s.processedLogs }

/-- `dict[k]`: raises `KeyError` when the key is absent. -/
def keyErr {α : Type} (k : String) : Option α → Except String α
  | some v => .ok v
  | none => .error ("KeyError: " ++ k)

/-- Python string truthiness: `None` and `""` are falsy. -/
def pyTruthy : Option String → Bool
  | some s => s ≠ ""
  | none => false

/-- Python `a or b` on optional strings. -/
def pyOrStr (a b : Option String) : Option String :=
  if pyTruthy a then a else b

/-- `event.get(loc) or event.get(raw) or "Unknown"`
(src/app.py lines 126 and 161). -/
def resolve_name (loc raw : Option String) : String :=
  match pyOrStr (pyOrStr loc raw) (some "Unknown") with
  | some s => s
  | none => "Unknown"

/-- One line of a journal file: either valid JSON decoding to an event, or
a line `json.loads` rejects. -/
inductive Line where
  | valid (e : Event)
  | invalid (raw : String)
  deriving DecidableEq, Repr

/-- `parse_log_file` (src/app.py lines 56-70): each line is decoded
independently; a line that fails to parse is skipped with a warning and
decoding continues. -/
def parse_log_file (lines : List Line) : List Event :=
  lines.filterMap fun l =>
    match l with
    | .valid e => some e
    | .invalid _ => none

/-- `parse_cargo_file` (src/app.py lines 72-81): an unreadable or
unparseable Cargo.json yields `{"Inventory": []}`. -/
def parse_cargo_file (raw : Option CargoData) : CargoData :=
  raw.getD { Inventory := [] }

/-- `get_total_cargo_count` (src/app.py lines 83-87). -/
def get_total_cargo_count (cargo_data : CargoData) : Int :=
  (cargo_data.Inventory.map fun item => item.Count.getD 0).sum

/-- `delivered = 0 AND sold = 0`: the record is still open. -/
def is_open (p : Purchase) : Bool :=
  p.delivered == false && p.sold == false

/-- The WHERE clause of the targeted transitions (src/app.py lines 149 and
165): `item = ? AND count = ? AND delivered = 0 AND sold = 0`. -/
def open_match (item_name : String) (count : Int) (p : Purchase) : Bool :=
  p.item == item_name && p.count == count && is_open p

/-- `SET sold = 1, sold_at = ?, sold_time = ?` (src/app.py line 148). -/
def mark_sold (station ts : String) (p : Purchase) : Purchase :=
  { p with sold := true, sold_at := some station, sold_time := some ts }

/-- `SET delivered = 1, delivered_to = ?, delivered_time = ?`
(src/app.py lines 164 and 179). -/
def mark_delivered (station ts : String) (p : Purchase) : Purchase :=
  { p with delivered := true, delivered_to := some station,
           delivered_time := some ts }

/-- `UPDATE ... WHERE pred LIMIT 1`: updates the first row in rowid order
satisfying the predicate (SQLite scans rowids ascending; the spec leaves
the tie-break unspecified, see spec §9). -/
def update_first (pred : Purchase → Bool) (f : Purchase → Purchase) :
    List Purchase → List Purchase
  | [] => []
  | p :: ps => if pred p then f p :: ps else p :: update_first pred f ps

/-- The `Docked` branch (src/app.py lines 109-120): a missing `MarketID`
skips the event; otherwise `event["StationName"]`, `event["StarSystem"]`,
`event["SystemAddress"]` are read with `[]` (KeyError on absence) and the
docking context is replaced unconditionally. -/
def handle_docked (e : Event) (ts : String) (s : RunState) :
    Except String RunState :=
  match e.MarketID with
  | none => .ok s
  | some _ => do
    let sn ← keyErr "StationName" e.StationName
    let ss ← keyErr "StarSystem" e.StarSystem
    let sa ← keyErr "SystemAddress" e.SystemAddress
    .ok { s with
          dockedStation := some { StationName := sn, StarSystem := ss,
                                  SystemAddress := sa, timestamp := ts } }

/-- The row inserted by the MarketBuy INSERT (src/app.py lines 126-135):
item name resolved with the localized fallback chain, numeric fields
defaulting to 0, station and system from the current docking context. -/
def bought_record (e : Event) (ts : String) (d : DockedStation)
    (nid : Nat) : Purchase :=
  { id := nid, item := resolve_name e.Type_Localised e.TypeRaw,
    count := e.Count.getD 0, buy_price := e.BuyPrice.getD 0,
    total_cost := e.TotalCost.getD 0, bought_at := d.StationName,
    bought_system := d.StarSystem, bought_time := ts, delivered := false,
    delivered_to := none, delivered_time := none, sold := false,
    sold_at := none, sold_time := none }

/-- The `MarketBuy` branch (src/app.py lines 121-139). Note line 123:
`if not docked_station or market_id != event.get("MarketID")` compares the
event's own `MarketID` with itself, so the second disjunct never holds;
it is embedded literally. -/
def handle_market_buy (e : Event) (ts : String) (s : RunState) : RunState :=
  match s.dockedStation with
  | none => s
  | some d =>
    if e.MarketID ≠ e.MarketID then s
    else
      { s with
        purchases := s.purchases ++ [bought_record e ts d s.nextId],
        nextId := s.nextId + 1 }

/-- The `MarketSell` branch (src/app.py lines 140-155). Line 142 has the
same self-comparison as line 123. Item name is `event.get("Type", "Unknown")`
— the raw field only, no localized fallback (line 145). The UPDATE matches
`item = ? AND count = ? AND delivered = 0 AND sold = 0 LIMIT 1`. -/
def handle_market_sell (e : Event) (ts : String) (s : RunState) : RunState :=
  match s.dockedStation with
  | none => s
  | some d =>
    if e.MarketID ≠ e.MarketID then s
    else
      let item_name := e.TypeRaw.getD "Unknown"
      let count := e.Count.getD 0
      { s with
        purchases := update_first (open_match item_name count)
          (mark_sold d.StationName ts) s.purchases }

/-- The `CargoDepot`/`Deliver` branch (src/app.py lines 156-171). Line 158
has the same self-comparison, on `EndMarketID`. Item name uses the
localized fallback chain (line 161). -/
def handle_cargo_depot (e : Event) (ts : String) (s : RunState) : RunState :=
  match s.dockedStation with
  | none => s
  | some d =>
    if e.EndMarketID ≠ e.EndMarketID then s
    else
      let item_name := resolve_name e.CargoType_Localised e.CargoType
      let count := e.Count.getD 0
      { s with
        purchases := update_first (open_match item_name count)
          (mark_delivered d.StationName ts) s.purchases }

/-- The `Cargo` branch (src/app.py lines 172-184): re-read Cargo.json,
total the inventory, fire the bulk non-mission-delivery heuristic when the
count drops to zero from a positive snapshot while docked in a colonized
system, and always update the snapshot. -/
def handle_cargo (colonized : List Int) (e : Event) (ts : String)
    (s : RunState) : RunState :=
  let cargo_data := parse_cargo_file e.cargoFile
  let current_cargo := get_total_cargo_count cargo_data
  let s1 :=
    match s.cargoCount, s.dockedStation with
    | some prev, some d =>
      if current_cargo == 0 && 0 < prev && colonized.contains d.SystemAddress
      then
        { s with
          purchases := s.purchases.map fun (p : Purchase) =>
            if is_open p then mark_delivered d.StationName ts p else p }
      else s
    | _, _ => s
  { s1 with cargoCount := some current_cargo }

/-- One iteration of the event loop (src/app.py lines 107-184). Line 108
evaluates `event['event']` and `event['timestamp']`, so either key missing
raises `KeyError` before dispatch. -/
def process_event (colonized : List Int) (e : Event) (s : RunState) :
    Except String RunState := do
  let kind ← keyErr "event" e.event
  let ts ← keyErr "timestamp" e.timestamp
  if kind = "Docked" then
    handle_docked e ts s
  else if kind = "MarketBuy" then
    .ok (handle_market_buy e ts s)
  else if kind = "MarketSell" then
    .ok (handle_market_sell e ts s)
  else if kind = "CargoDepot" && e.UpdateType == some "Deliver" then
    .ok (handle_cargo_depot e ts s)
  else if kind = "Cargo" then
    .ok (handle_cargo colonized e ts s)
  else
    .ok s

/-- The events of one file, applied in order; a raised `KeyError`
propagates and aborts the remainder. -/
def process_events (colonized : List Int) :
    List Event → RunState → Except String RunState
  | [], s => .ok s
  | e :: es, s => do
    let s' ← process_event colonized e s
    process_events colonized es s'

/-- One file of the `for log_file in log_files` loop (src/app.py lines
99-189): a file whose name is already in `processed_logs` is skipped
entirely; otherwise its events are applied and the name is recorded. -/
def process_file (colonized : List Int) (fname : String) (lines : List Line)
    (s : RunState) : Except String RunState :=
  if s.processedLogs.contains fname then .ok s
  else do
    let s' ← process_events colonized (parse_log_file lines) s
    .ok { s' with processedLogs := s'.processedLogs ++ [fname] }

/-- The file loop with per-file commit: an exception inside a file loses
that file's uncommitted changes (the transaction is never committed) and
aborts the run, while previously committed files keep their effects. -/
def process_files (colonized : List Int) :
    List (String × List Line) → RunState → RunState × Option String
  | [], s => (s, none)
  | (fname, lines) :: fs, s =>
    match process_file colonized fname lines s with
    | .ok s' => process_files colonized fs s'
    | .error msg => (s, some msg)

/-- `process_logs` (src/app.py lines 89-191): run the file loop from a
fresh run context (`docked_station = None`, `cargo_count = None`) over the
persisted database, returning the committed database and the error that
aborted the run, if any. -/
def process_logs (colonized : List Int) (files : List (String × List Line))
    (db : Db) : Db × Option String :=
  let r := process_files colonized files (RunState.ofDb db)
  (r.1.toDb, r.2)

/-- The total of the cargo report read when a given Cargo event fires. -/
def new_total (e : Event) : Int :=
  get_total_cargo_count (parse_cargo_file e.cargoFile)

/-- The firing condition of the bulk non-mission-delivery heuristic, as the
spec states it (§4.5): new total zero, previous snapshot non-null and
positive, a docking context active, and the docked system's address in the
colonized set. -/
def bulk_condition (colonized : List Int) (s : RunState) (total : Int) : Prop :=
  total = 0 ∧ (∃ prev, s.cargoCount = some prev ∧ 0 < prev) ∧
  (∃ d, s.dockedStation = some d ∧ d.SystemAddress ∈ colonized)

/-- One observable transition of the persisted ledger: a dispatched event,
the per-file ingestion mark, or the start of a fresh run (which resets the
run-scoped docking and cargo context but keeps the database). -/
inductive Step : RunState → RunState → Prop where
  | event (colonized : List Int) (e : Event) (s s' : RunState) :
      process_event colonized e s = .ok s' → Step s s'
  | mark (s : RunState) (fname : String) :
      Step s { s with processedLogs := s.processedLogs ++ [fname] }
  | run_reset (s : RunState) :
      Step s (RunState.ofDb s.toDb)

/-- The empty database produced by `init_db` (src/app.py lines 18-39):
no purchases, no processed logs, AUTOINCREMENT starting at 1. -/
def init_db : Db :=
  { purchases := [], nextId := 1, processedLogs := [] }

/-- Ledger states reachable from the freshly initialized database. -/
def Reachable (s : RunState) : Prop :=
  Relation.ReflTransGen Step (RunState.ofDb init_db) s

/-- No purchase record ever has both disposition flags set. -/
def LedgerInv (s : RunState) : Prop :=
  ∀ p ∈ s.purchases, ¬(p.delivered = true ∧ p.sold = true)

section Examples

/-- Docked at station A, market 1, system address 100. -/
def eDockA : Event :=
  { event := some "Docked", timestamp := some "t1", MarketID := some 1,
    StationName := some "A", StarSystem := some "SysA",
    SystemAddress := some 100 }

/-- Docked at station B, market 2, system address 200. -/
def eDockB : Event :=
  { event := some "Docked", timestamp := some "t3", MarketID := some 2,
    StationName := some "B", StarSystem := some "SysB",
    SystemAddress := some 200 }

/-- Buy 5 x at market 1. -/
def eBuyX5 : Event :=
  { event := some "MarketBuy", timestamp := some "t2", MarketID := some 1,
    TypeRaw := some "x", Count := some 5, BuyPrice := some 10,
    TotalCost := some 50 }

/-- Buy 5 x at market 2 — a market other than the docked one. -/
def eBuyOther : Event :=
  { event := some "MarketBuy", timestamp := some "t2", MarketID := some 2,
    TypeRaw := some "x", Count := some 5 }

/-- Sell 5 x at market 2. -/
def eSellX5 : Event :=
  { event := some "MarketSell", timestamp := some "t4", MarketID := some 2,
    TypeRaw := some "x", Count := some 5 }

/-- Sell 5 x at market 9 — a market other than the docked one. -/
def eSellM9 : Event :=
  { event := some "MarketSell", timestamp := some "t4", MarketID := some 9,
    TypeRaw := some "x", Count := some 5 }

/-- A Cargo event whose Cargo.json read totals 10 units. -/
def eCargo10 : Event :=
  { event := some "Cargo", timestamp := some "t5",
    cargoFile := some { Inventory := [{ Count := some 10 }] } }

/-- A Cargo event whose Cargo.json read totals 0 units. -/
def eCargo0 : Event :=
  { event := some "Cargo", timestamp := some "t6",
    cargoFile := some { Inventory := [] } }

/-- A Docked event carrying station name, star system, system address and
timestamp, but no MarketID. -/
def eDockNoMid : Event :=
  { event := some "Docked", timestamp := some "t1",
    StationName := some "A", StarSystem := some "SysA",
    SystemAddress := some 100 }

/-- A Docked event carrying MarketID but missing StationName. -/
def eDockNoStation : Event :=
  { event := some "Docked", timestamp := some "t1", MarketID := some 1,
    StarSystem := some "SysA", SystemAddress := some 100 }

/-- The docking context produced by `eDockA`. -/
def dockA : DockedStation :=
  { StationName := "A", StarSystem := "SysA", SystemAddress := 100,
    timestamp := "t1" }

/-- The run state at the start of a run over the fresh database. -/
def initRun : RunState := RunState.ofDb init_db

/-- The purchase record inserted by `eBuyX5` while docked at A. -/
def pBoughtX5 : Purchase :=
  { id := 1, item := "x", count := 5, buy_price := 10, total_cost := 50,
    bought_at := "A", bought_system := "SysA", bought_time := "t2",
    delivered := false, delivered_to := none, delivered_time := none,
    sold := false, sold_at := none, sold_time := none }

/-- A run state docked at A holding the one open purchase `pBoughtX5`,
with a cargo snapshot of 10: the state after
`[eDockA, eBuyX5, eCargo10]`. -/
def sCargo10 : RunState :=
  { purchases := [pBoughtX5], nextId := 2, processedLogs := [],
    dockedStation := some dockA, cargoCount := some 10 }

/-- `sCargo10` after `eCargo0`: the bulk heuristic has fired. -/
def sCargo0 : RunState :=
  { purchases := [mark_delivered "A" "t6" pBoughtX5], nextId := 2,
    processedLogs := [], dockedStation := some dockA, cargoCount := some 0 }

/-- A journal file: one invalid line among nine valid MarketBuy lines. -/
def file10 : List Line :=
  [Line.valid eBuyX5, Line.valid eBuyX5, Line.valid eBuyX5,
   Line.valid eBuyX5, Line.invalid "garbage", Line.valid eBuyX5,
   Line.valid eBuyX5, Line.valid eBuyX5, Line.valid eBuyX5,
   Line.valid eBuyX5]

/-- A CargoDepot Deliver event for 5 x with EndMarketID 9 — an end market
other than the docked one. -/
def eDepotM9 : Event :=
  { event := some "CargoDepot", UpdateType := some "Deliver",
    timestamp := some "t7", EndMarketID := some 9,
    CargoType := some "x", Count := some 5 }

/-- A CargoDepot Deliver event for 5 x with EndMarketID 1. -/
def eDepotX5 : Event :=
  { event := some "CargoDepot", UpdateType := some "Deliver",
    timestamp := some "t7", EndMarketID := some 1,
    CargoType := some "x", Count := some 5 }

/-- A MarketBuy whose Type_Localised ("Gold") differs from its raw type
("gold"). -/
def eBuyLoc : Event :=
  { event := some "MarketBuy", timestamp := some "t8", MarketID := some 1,
    Type_Localised := some "Gold", TypeRaw := some "gold", Count := some 5 }

/-- A MarketSell of the same commodity, carrying the raw type "gold". -/
def eSellGold : Event :=
  { event := some "MarketSell", timestamp := some "t9", MarketID := some 1,
    TypeRaw := some "gold", Count := some 5 }

/-- `initRun` after `eDockA`. -/
def sDock0 : RunState :=
  { purchases := [], nextId := 1, processedLogs := [],
    dockedStation := some dockA, cargoCount := none }

/-- `sDock0` after `eBuyX5`. -/
def sBought : RunState :=
  { purchases := [pBoughtX5], nextId := 2, processedLogs := [],
    dockedStation := some dockA, cargoCount := none }

/-- `sBought` after `eSellX5`: the purchase is sold at A at t4. -/
def sSoldA : RunState :=
  { purchases := [mark_sold "A" "t4" pBoughtX5], nextId := 2,
    processedLogs := [], dockedStation := some dockA, cargoCount := none }

/-- A run state docked at B with an empty ledger. -/
def sDockedB : RunState :=
  { purchases := [], nextId := 1, processedLogs := [],
    dockedStation := some { StationName := "B", StarSystem := "SysB",
                            SystemAddress := 200, timestamp := "t3" },
    cargoCount := none }

/-- The database after a run over one file holding `eDockA` and `eBuyX5`. -/
def dbAfter : Db :=
  { purchases := [pBoughtX5], nextId := 2,
    processedLogs := ["Journal.a.log"] }

/-- The record inserted by `eBuyLoc` while docked at A: stored under the
localized name "Gold", not the raw type "gold". -/
def pGold : Purchase :=
  { id := 1, item := "Gold", count := 5, buy_price := 0, total_cost := 0,
    bought_at := "A", bought_system := "SysA", bought_time := "t8",
    delivered := false, delivered_to := none, delivered_time := none,
    sold := false, sold_at := none, sold_time := none }

/-- `sDock0` after `eBuyLoc`: one open purchase stored as "Gold". -/
def sGold : RunState :=
  { purchases := [pGold], nextId := 2, processedLogs := [],
    dockedStation := some dockA, cargoCount := none }

end Examples

/-! ### Dispatch lemmas: `process_event` reduced per event kind -/

theorem process_event_docked_eq (colonized : List Int) (e : Event) (ts : String)
    (s : RunState) (hk : e.event = some "Docked") (ht : e.timestamp = some ts) :
    process_event colonized e s = handle_docked e ts s := by
  unfold process_event
  rw [hk, ht]
  rfl

theorem process_event_buy_eq (colonized : List Int) (e : Event) (ts : String)
    (s : RunState) (hk : e.event = some "MarketBuy")
    (ht : e.timestamp = some ts) :
    process_event colonized e s = .ok (handle_market_buy e ts s) := by
  unfold process_event
  rw [hk, ht]
  rfl

theorem process_event_sell_eq (colonized : List Int) (e : Event) (ts : String)
    (s : RunState) (hk : e.event = some "MarketSell")
    (ht : e.timestamp = some ts) :
    process_event colonized e s = .ok (handle_market_sell e ts s) := by
  unfold process_event
  rw [hk, ht]
  rfl

theorem process_event_cargo_eq (colonized : List Int) (e : Event) (ts : String)
    (s : RunState) (hk : e.event = some "Cargo") (ht : e.timestamp = some ts) :
    process_event colonized e s = .ok (handle_cargo colonized e ts s) := by
  unfold process_event
  rw [hk, ht]
  rfl

/-! ### `update_first` lemmas -/

theorem update_first_length (pred : Purchase → Bool) (f : Purchase → Purchase)
    (l : List Purchase) : (update_first pred f l).length = l.length := by
  induction l with
  | nil => rfl
  | cons p ps ih =>
    simp only [update_first]
    split <;> simp [ih]

theorem update_first_getElem?_of_pred_false (pred : Purchase → Bool)
    (f : Purchase → Purchase) (l : List Purchase) (i : Nat)
    (hi : i < l.length) (h : pred (l.get ⟨i, hi⟩) = false) :
    (update_first pred f l)[i]? = some (l.get ⟨i, hi⟩) := by
  induction l generalizing i with
  | nil => exact absurd hi (Nat.not_lt_zero i)
  | cons p ps ih =>
    simp only [update_first]
    split
    · cases i with
      | zero => simp_all
      | succ j =>
        simp only [List.get_cons_succ] at h ⊢
        simp [List.getElem?_cons_succ, List.getElem?_eq_getElem]
    · cases i with
      | zero => simp
      | succ j =>
        simp only [List.get_cons_succ] at h ⊢
        simpa [List.getElem?_cons_succ] using ih j (Nat.lt_of_succ_lt_succ hi) h

theorem update_first_mem (pred : Purchase → Bool) (f : Purchase → Purchase)
    (l : List Purchase) (q : Purchase) (hq : q ∈ update_first pred f l) :
    q ∈ l ∨ ∃ p, p ∈ l ∧ pred p = true ∧ q = f p := by
  induction l with
  | nil => simp [update_first] at hq
  | cons p ps ih =>
    simp only [update_first] at hq
    split at hq
    · rcases List.mem_cons.mp hq with h | h
      · right
        exact ⟨p, List.mem_cons_self p ps, by assumption, h⟩
      · left
        exact List.mem_cons_of_mem p h
    · rcases List.mem_cons.mp hq with h | h
      · left
        simp [h]
      · rcases ih h with h' | ⟨r, hr, hpr, hqr⟩
        · left
          exact List.mem_cons_of_mem p h'
        · right
          exact ⟨r, List.mem_cons_of_mem p hr, hpr, hqr⟩

/-! ### Event-level inversion and frame lemmas -/


theorem process_event_dispatch_eq (colonized : List Int) (e : Event)
    (s : RunState) (k ts : String)
    (hek : e.event = some k) (het : e.timestamp = some ts) :
    process_event colonized e s =
      (if k = "Docked" then handle_docked e ts s
       else if k = "MarketBuy" then .ok (handle_market_buy e ts s)
       else if k = "MarketSell" then .ok (handle_market_sell e ts s)
       else if k = "CargoDepot" && e.UpdateType == some "Deliver" then
         .ok (handle_cargo_depot e ts s)
       else if k = "Cargo" then .ok (handle_cargo colonized e ts s)
       else .ok s) := by
  unfold process_event
  rw [hek, het]
  rfl

theorem process_event_inversion (colonized : List Int) (e : Event)
    (s s' : RunState) (h : process_event colonized e s = .ok s') :
    ∃ k ts, e.event = some k ∧ e.timestamp = some ts ∧
      ((k = "Docked" ∧ handle_docked e ts s = .ok s') ∨
       (k = "MarketBuy" ∧ s' = handle_market_buy e ts s) ∨
       (k = "MarketSell" ∧ s' = handle_market_sell e ts s) ∨
       (k = "CargoDepot" ∧ s' = handle_cargo_depot e ts s) ∨
       (k = "Cargo" ∧ s' = handle_cargo colonized e ts s) ∨
       s' = s) := by
  cases hek : e.event with
  | none =>
    have he : process_event colonized e s = .error "KeyError: event" := by
      unfold process_event
      rw [hek]
      rfl
    rw [he] at h
    exact Except.noConfusion h
  | some k =>
    cases het : e.timestamp with
    | none =>
      have he : process_event colonized e s = .error "KeyError: timestamp" := by
        unfold process_event
        rw [hek, het]
        rfl
      rw [he] at h
      exact Except.noConfusion h
    | some ts =>
      refine ⟨k, ts, rfl, rfl, ?_⟩
      rw [process_event_dispatch_eq colonized e s k ts hek het] at h
      split at h
      · exact Or.inl ⟨by assumption, h⟩
      · split at h
        · exact Or.inr (Or.inl ⟨by assumption, ((Except.ok.injEq _ _).mp h).symm⟩)
        · split at h
          · exact Or.inr (Or.inr (Or.inl ⟨by assumption,
              ((Except.ok.injEq _ _).mp h).symm⟩))
          · split at h
            · rename_i hc
              have hk4 : k = "CargoDepot" :=
                of_decide_eq_true ((Bool.and_eq_true _ _).mp hc).1
              exact Or.inr (Or.inr (Or.inr (Or.inl ⟨hk4,
                ((Except.ok.injEq _ _).mp h).symm⟩)))
            · split at h
              · exact Or.inr (Or.inr (Or.inr (Or.inr (Or.inl ⟨by assumption,
                  ((Except.ok.injEq _ _).mp h).symm⟩))))
              · exact Or.inr (Or.inr (Or.inr (Or.inr (Or.inr
                  ((Except.ok.injEq _ _).mp h).symm))))


theorem handle_docked_frame (e : Event) (ts : String) (s s' : RunState)
    (h : handle_docked e ts s = .ok s') :
    s'.purchases = s.purchases ∧ s'.nextId = s.nextId ∧
    s'.processedLogs = s.processedLogs ∧ s'.cargoCount = s.cargoCount := by
  unfold handle_docked at h
  split at h
  · obtain rfl := (Except.ok.injEq _ _).mp h
    exact ⟨rfl, rfl, rfl, rfl⟩
  · cases hsn : e.StationName with
    | none =>
      rw [hsn] at h
      exact Except.noConfusion
        (show Except.error "KeyError: StationName" = Except.ok s' from h)
    | some sn =>
      rw [hsn] at h
      cases hss : e.StarSystem with
      | none =>
        rw [hss] at h
        exact Except.noConfusion
          (show Except.error "KeyError: StarSystem" = Except.ok s' from h)
      | some ss =>
        rw [hss] at h
        cases hsa : e.SystemAddress with
        | none =>
          rw [hsa] at h
          exact Except.noConfusion
            (show Except.error "KeyError: SystemAddress" = Except.ok s' from h)
        | some sa =>
          rw [hsa] at h
          obtain rfl := (Except.ok.injEq _ _).mp h
          exact ⟨rfl, rfl, rfl, rfl⟩

theorem handle_market_buy_frame (e : Event) (ts : String) (s : RunState) :
    (handle_market_buy e ts s).dockedStation = s.dockedStation ∧
    (handle_market_buy e ts s).cargoCount = s.cargoCount ∧
    (handle_market_buy e ts s).processedLogs = s.processedLogs := by
  unfold handle_market_buy
  split
  · exact ⟨rfl, rfl, rfl⟩
  · split
    · exact ⟨rfl, rfl, rfl⟩
    · exact ⟨rfl, rfl, rfl⟩

theorem handle_market_sell_frame (e : Event) (ts : String) (s : RunState) :
    (handle_market_sell e ts s).dockedStation = s.dockedStation ∧
    (handle_market_sell e ts s).cargoCount = s.cargoCount ∧
    (handle_market_sell e ts s).processedLogs = s.processedLogs ∧
    (handle_market_sell e ts s).nextId = s.nextId := by
  unfold handle_market_sell
  split
  · exact ⟨rfl, rfl, rfl, rfl⟩
  · split
    · exact ⟨rfl, rfl, rfl, rfl⟩
    · exact ⟨rfl, rfl, rfl, rfl⟩

theorem handle_cargo_depot_frame (e : Event) (ts : String) (s : RunState) :
    (handle_cargo_depot e ts s).dockedStation = s.dockedStation ∧
    (handle_cargo_depot e ts s).cargoCount = s.cargoCount ∧
    (handle_cargo_depot e ts s).processedLogs = s.processedLogs ∧
    (handle_cargo_depot e ts s).nextId = s.nextId := by
  unfold handle_cargo_depot
  split
  · exact ⟨rfl, rfl, rfl, rfl⟩
  · split
    · exact ⟨rfl, rfl, rfl, rfl⟩
    · exact ⟨rfl, rfl, rfl, rfl⟩

theorem handle_cargo_frame (colonized : List Int) (e : Event) (ts : String)
    (s : RunState) :
    (handle_cargo colonized e ts s).dockedStation = s.dockedStation ∧
    (handle_cargo colonized e ts s).processedLogs = s.processedLogs ∧
    (handle_cargo colonized e ts s).nextId = s.nextId := by
  unfold handle_cargo
  split
  · dsimp only
    split
    · exact ⟨rfl, rfl, rfl⟩
    · exact ⟨rfl, rfl, rfl⟩
  · exact ⟨rfl, rfl, rfl⟩

theorem handle_market_buy_purchases (e : Event) (ts : String) (s : RunState) :
    (handle_market_buy e ts s).purchases = s.purchases ∨
    ∃ pn, (handle_market_buy e ts s).purchases = s.purchases ++ [pn] ∧
      pn.delivered = false ∧ pn.sold = false := by
  unfold handle_market_buy
  split
  · exact Or.inl rfl
  · split
    · exact Or.inl rfl
    · exact Or.inr ⟨_, rfl, rfl, rfl⟩

theorem handle_market_sell_purchases (e : Event) (ts : String) (s : RunState) :
    (handle_market_sell e ts s).purchases = s.purchases ∨
    ∃ item count st, (handle_market_sell e ts s).purchases =
      update_first (open_match item count) (mark_sold st ts) s.purchases := by
  unfold handle_market_sell
  split
  · exact Or.inl rfl
  · split
    · exact Or.inl rfl
    · exact Or.inr ⟨_, _, _, rfl⟩

theorem handle_cargo_depot_purchases (e : Event) (ts : String) (s : RunState) :
    (handle_cargo_depot e ts s).purchases = s.purchases ∨
    ∃ item count st, (handle_cargo_depot e ts s).purchases =
      update_first (open_match item count) (mark_delivered st ts) s.purchases := by
  unfold handle_cargo_depot
  split
  · exact Or.inl rfl
  · split
    · exact Or.inl rfl
    · exact Or.inr ⟨_, _, _, rfl⟩

theorem handle_cargo_purchases (colonized : List Int) (e : Event) (ts : String)
    (s : RunState) :
    (handle_cargo colonized e ts s).purchases = s.purchases ∨
    ∃ st, (handle_cargo colonized e ts s).purchases =
      s.purchases.map (fun p => if is_open p then mark_delivered st ts p else p) := by
  unfold handle_cargo
  split
  · dsimp only
    split
    · exact Or.inr ⟨_, rfl⟩
    · exact Or.inl rfl
  · exact Or.inl rfl


theorem process_event_ok_purchases (colonized : List Int) (e : Event)
    (s s' : RunState) (h : process_event colonized e s = .ok s') :
    s'.purchases = s.purchases ∨
    (∃ pn, s'.purchases = s.purchases ++ [pn] ∧ pn.delivered = false ∧
      pn.sold = false) ∨
    (∃ item count st ts, s'.purchases =
      update_first (open_match item count) (mark_sold st ts) s.purchases) ∨
    (∃ item count st ts, s'.purchases =
      update_first (open_match item count) (mark_delivered st ts) s.purchases) ∨
    (∃ st ts, s'.purchases = s.purchases.map
      (fun p => if is_open p then mark_delivered st ts p else p)) := by
  obtain ⟨k, ts, hek, het, hcase⟩ := process_event_inversion colonized e s s' h
  rcases hcase with ⟨-, hd⟩ | ⟨-, rfl⟩ | ⟨-, rfl⟩ | ⟨-, rfl⟩ | ⟨-, rfl⟩ | rfl
  · exact Or.inl (handle_docked_frame e ts s s' hd).1
  · rcases handle_market_buy_purchases e ts s with h1 | ⟨pn, h1, h2, h3⟩
    · exact Or.inl h1
    · exact Or.inr (Or.inl ⟨pn, h1, h2, h3⟩)
  · rcases handle_market_sell_purchases e ts s with h1 | ⟨it, ct, st, h1⟩
    · exact Or.inl h1
    · exact Or.inr (Or.inr (Or.inl ⟨it, ct, st, ts, h1⟩))
  · rcases handle_cargo_depot_purchases e ts s with h1 | ⟨it, ct, st, h1⟩
    · exact Or.inl h1
    · exact Or.inr (Or.inr (Or.inr (Or.inl ⟨it, ct, st, ts, h1⟩)))
  · rcases handle_cargo_purchases colonized e ts s with h1 | ⟨st, h1⟩
    · exact Or.inl h1
    · exact Or.inr (Or.inr (Or.inr (Or.inr ⟨st, ts, h1⟩)))
  · exact Or.inl rfl

theorem is_open_false_of_terminal (p : Purchase)
    (h : p.sold = true ∨ p.delivered = true) : is_open p = false := by
  rcases h with h | h <;> simp [is_open, h]

theorem open_match_false_of_terminal (item : String) (count : Int)
    (p : Purchase) (h : p.sold = true ∨ p.delivered = true) :
    open_match item count p = false := by
  simp [open_match, is_open_false_of_terminal p h]

theorem process_event_preserves_terminal (colonized : List Int) (e : Event)
    (s s' : RunState) (h : process_event colonized e s = .ok s')
    (i : Nat) (hi : i < s.purchases.length)
    (ht : (s.purchases.get ⟨i, hi⟩).sold = true ∨
          (s.purchases.get ⟨i, hi⟩).delivered = true) :
    s'.purchases[i]? = some (s.purchases.get ⟨i, hi⟩) := by
  rcases process_event_ok_purchases colonized e s s' h with
    h1 | ⟨pn, h1, -, -⟩ | ⟨it, ct, st, ts, h1⟩ | ⟨it, ct, st, ts, h1⟩ | ⟨st, ts, h1⟩
  · rw [h1]
    exact List.getElem?_eq_getElem hi
  · rw [h1, List.getElem?_append_left hi]
    exact List.getElem?_eq_getElem hi
  · rw [h1]
    exact update_first_getElem?_of_pred_false _ _ _ i hi
      (open_match_false_of_terminal it ct _ ht)
  · rw [h1]
    exact update_first_getElem?_of_pred_false _ _ _ i hi
      (open_match_false_of_terminal it ct _ ht)
  · have hio : is_open (s.purchases.get ⟨i, hi⟩) = false :=
      is_open_false_of_terminal _ ht
    rw [h1, List.getElem?_map, List.getElem?_eq_getElem hi]
    simp only [List.get_eq_getElem] at hio
    simp [hio]

theorem process_event_preserves_inv (colonized : List Int) (e : Event)
    (s s' : RunState) (h : process_event colonized e s = .ok s')
    (hinv : LedgerInv s) : LedgerInv s' := by
  rcases process_event_ok_purchases colonized e s s' h with
    h1 | ⟨pn, h1, h2, h3⟩ | ⟨it, ct, st, ts, h1⟩ | ⟨it, ct, st, ts, h1⟩ |
    ⟨st, ts, h1⟩ <;> intro p hp <;> rw [h1] at hp
  · exact hinv p hp
  · rcases List.mem_append.mp hp with hp' | hp'
    · exact hinv p hp'
    · obtain rfl := List.mem_singleton.mp hp'
      rw [h3]
      simp
  · rcases update_first_mem _ _ _ _ hp with hp' | ⟨q, hq, hpq, rfl⟩
    · exact hinv p hp'
    · have hqd : q.delivered = false := by
        simp [open_match, is_open, Bool.and_eq_true] at hpq
        exact hpq.2.1
      simp [mark_sold, hqd]
  · rcases update_first_mem _ _ _ _ hp with hp' | ⟨q, hq, hpq, rfl⟩
    · exact hinv p hp'
    · have hqs : q.sold = false := by
        simp [open_match, is_open, Bool.and_eq_true] at hpq
        exact hpq.2.2
      simp [mark_delivered, hqs]
  · rcases List.mem_map.mp hp with ⟨q, hq, rfl⟩
    by_cases hop : is_open q = true
    · have hqs : q.sold = false := by
        simp [is_open, Bool.and_eq_true] at hop
        exact hop.2
      simp [hop, mark_delivered, hqs]
    · rw [Bool.not_eq_true] at hop
      simp only [hop, Bool.false_eq_true, if_false]
      exact hinv q hq

theorem step_preserves_inv (s s' : RunState) (hs : Step s s')
    (hinv : LedgerInv s) : LedgerInv s' := by
  cases hs with
  | event colonized e _ _ h => exact process_event_preserves_inv colonized e s s' h hinv
  | mark _ fname => exact hinv
  | run_reset _ => exact hinv

theorem reachable_inv (s : RunState) (h : Reachable s) : LedgerInv s := by
  induction h with
  | refl => intro p hp; simp [RunState.ofDb, init_db] at hp
  | tail _ hstep ih => exact step_preserves_inv _ _ hstep ih

theorem step_preserves_terminal (s s' : RunState) (hs : Step s s')
    (i : Nat) (hi : i < s.purchases.length)
    (ht : (s.purchases.get ⟨i, hi⟩).sold = true ∨
          (s.purchases.get ⟨i, hi⟩).delivered = true) :
    s'.purchases[i]? = some (s.purchases.get ⟨i, hi⟩) := by
  cases hs with
  | event colonized e _ _ h =>
    exact process_event_preserves_terminal colonized e s s' h i hi ht
  | mark _ fname => exact List.getElem?_eq_getElem hi
  | run_reset _ => exact List.getElem?_eq_getElem hi


/-- Claim C1 (code-bug exhibit): while docked at market 1 (station A), a
MarketBuy with MarketID 2 is inserted rather than discarded, a MarketSell
with MarketID 9 transitions the open purchase to sold, and a
CargoDepot-Deliver with EndMarketID 9 transitions it to delivered — the
mismatched-market check of src/app.py lines 123, 142 and 158 compares the
event's market identifier with itself, so it never discards anything. -/
theorem claim_C1_market_mismatch_not_discarded :
    (process_events [] [eDockA, eBuyOther] initRun).map
        (fun s => s.purchases.map Purchase.item) = .ok ["x"] ∧
    (process_events [] [eDockA, eBuyX5, eSellM9] initRun).map
        (fun s => s.purchases.map Purchase.sold) = .ok [true] ∧
    (process_events [] [eDockA, eBuyX5, eDepotM9] initRun).map
        (fun s => s.purchases.map Purchase.delivered) = .ok [true] :=
  ⟨rfl, rfl, rfl⟩

/-- Claim C8: for `[Docked(A), MarketBuy(x,5), Docked(B), MarketSell(x,5)]`
the sale stamps the purchase with station B and the sell event's timestamp
t4 — the docking context current at the disposition event, not the one at
purchase time. -/
theorem claim_C8_disposition_uses_current_context :
    process_events [] [eDockA, eBuyX5, eDockB, eSellX5] initRun =
      .ok { purchases := [mark_sold "B" "t4" pBoughtX5], nextId := 2,
            processedLogs := [],
            dockedStation := some { StationName := "B", StarSystem := "SysB",
                                    SystemAddress := 200, timestamp := "t3" },
            cargoCount := none } ∧
    (mark_sold "B" "t4" pBoughtX5).sold_at = some "B" ∧
    (mark_sold "B" "t4" pBoughtX5).sold_time = some "t4" :=
  ⟨rfl, rfl, rfl⟩

/-- Claim C9: a record missing the `event` or `timestamp` key, or a Docked
event carrying MarketID but missing StationName, raises KeyError; inside a
file this aborts the remaining events and the run, leaving the database
unchanged and the file unmarked. Only JSON-decode failures are recovered
locally (the last conjunct). -/
theorem claim_C9_keyerror_aborts_run :
    process_event [] { timestamp := some "t1" } initRun =
      .error "KeyError: event" ∧
    process_event [] { event := some "MarketBuy" } initRun =
      .error "KeyError: timestamp" ∧
    process_event [] eDockNoStation initRun =
      .error "KeyError: StationName" ∧
    process_logs [] [("Journal.a.log",
        [Line.valid eDockNoStation, Line.valid eDockA, Line.valid eBuyX5])]
        init_db =
      (init_db, some "KeyError: StationName") ∧
    parse_log_file [Line.invalid "not json", Line.valid eDockA] = [eDockA] :=
  ⟨rfl, rfl, rfl, rfl, rfl⟩

/-- Claim C5 (counterexample): a Docked event carrying station name, star
system, system address and timestamp but no MarketID does not replace the
docking context — src/app.py lines 110-113 skip it. -/
theorem claim_C5_counterexample :
    eDockNoMid.StationName = some "A" ∧ eDockNoMid.StarSystem = some "SysA" ∧
    eDockNoMid.SystemAddress = some 100 ∧ eDockNoMid.timestamp = some "t1" ∧
    process_event [] eDockNoMid initRun = .ok initRun ∧
    initRun.dockedStation ≠
      some { StationName := "A", StarSystem := "SysA", SystemAddress := 100,
             timestamp := "t1" } :=
  ⟨rfl, rfl, rfl, rfl, rfl, by decide⟩

/-- Claim C5 (amended): a Docked event carrying a MarketID together with
station name, star system, system address and timestamp replaces the
docking context with those four values unconditionally, whatever the
previous state. -/
theorem claim_C5_docked_replaces_context (colonized : List Int) (e : Event)
    (ts : String) (m : Int) (sn ss : String) (sa : Int) (s : RunState)
    (hk : e.event = some "Docked") (ht : e.timestamp = some ts)
    (hm : e.MarketID = some m) (hsn : e.StationName = some sn)
    (hss : e.StarSystem = some ss) (hsa : e.SystemAddress = some sa) :
    process_event colonized e s =
      .ok { s with
            dockedStation := some { StationName := sn, StarSystem := ss,
                                    SystemAddress := sa, timestamp := ts } }
    := by
  rw [process_event_docked_eq colonized e ts s hk ht]
  unfold handle_docked
  rw [hm, hsn, hss, hsa]
  rfl

/-- Witness for C5 amended: `eDockA` overwrites an existing context at B. -/
theorem claim_C5_witness :
    process_event [] eDockA sDockedB =
      .ok { sDockedB with dockedStation := some dockA } :=
  claim_C5_docked_replaces_context [] eDockA "t1" 1 "A" "SysA" 100 sDockedB
    rfl rfl rfl rfl rfl rfl

/-- Claim C6 (counterexample): with no docking context established (every
run starts with none, src/app.py line 93), a file of one invalid line and
nine valid MarketBuy lines yields zero inserted purchases, not nine. -/
theorem claim_C6_counterexample :
    (process_logs [] [("Journal.a.log", file10)] init_db).1.purchases.length
        = 0 ∧
    (process_logs [] [("Journal.a.log", file10)] init_db).1.purchases.length
        ≠ 9 :=
  ⟨rfl, by decide⟩

/-- Claim C6 (amended): a line that fails to parse is dropped and decoding
continues with the remaining lines, and — provided a docking context is
active — a file of one invalid line and nine valid MarketBuy lines yields
exactly nine inserted purchase records. -/
theorem claim_C6_invalid_line_skipped :
    (∀ (pre : List Line) (raw : String) (post : List Line),
      parse_log_file (pre ++ Line.invalid raw :: post) =
        parse_log_file (pre ++ post)) ∧
    (∀ d : DockedStation,
      (process_events [] (parse_log_file file10)
          { initRun with dockedStation := some d }).map
        (fun s => s.purchases.length) = .ok 9) := by
  constructor
  · intro pre raw post
    simp [parse_log_file]
  · intro d
    rfl


theorem process_file_skip (colonized : List Int) (fname : String)
    (lines : List Line) (s : RunState)
    (hc : s.processedLogs.contains fname = true) :
    process_file colonized fname lines s = .ok s := by
  unfold process_file
  rw [if_pos hc]

theorem process_file_ok_contains (colonized : List Int) (fname : String)
    (lines : List Line) (s s' : RunState)
    (h : process_file colonized fname lines s = .ok s') :
    s'.processedLogs.contains fname = true := by
  unfold process_file at h
  split at h
  · obtain rfl := (Except.ok.injEq _ _).mp h
    assumption
  · cases hev : process_events colonized (parse_log_file lines) s with
    | error msg =>
      rw [hev] at h
      exact Except.noConfusion
        (show Except.error msg = Except.ok s' from h)
    | ok s1 =>
      rw [hev] at h
      obtain rfl := (Except.ok.injEq _ _).mp h
      simp

/-- Claim C4: a file recorded as processed is skipped entirely — the run
state is returned untouched — and hence running the same file name in a
second run (with any content and any configuration) changes nothing in the
database: the events apply at most once. -/
theorem claim_C4_file_processed_once (colonized₁ colonized₂ : List Int)
    (fname : String) (lines₁ lines₂ : List Line) (db db₁ : Db)
    (h : process_logs colonized₁ [(fname, lines₁)] db = (db₁, none)) :
    (∀ (colonized : List Int) (lines : List Line) (s : RunState),
      s.processedLogs.contains fname = true →
      process_file colonized fname lines s = .ok s) ∧
    process_logs colonized₂ [(fname, lines₂)] db₁ = (db₁, none) := by
  refine ⟨fun colonized lines s hc => process_file_skip colonized fname lines s hc, ?_⟩
  have hdb₁ : db₁.processedLogs.contains fname = true := by
    unfold process_logs process_files at h
    cases hpf : process_file colonized₁ fname lines₁ (RunState.ofDb db) with
    | error msg =>
      rw [hpf] at h
      exact absurd ((Prod.mk.injEq _ _ _ _).mp h).2 (by simp)
    | ok s1 =>
      rw [hpf] at h
      obtain ⟨h1, -⟩ := (Prod.mk.injEq _ _ _ _).mp h
      rw [← h1]
      exact process_file_ok_contains colonized₁ fname lines₁ _ s1 hpf
  unfold process_logs process_files
  rw [process_file_skip colonized₂ fname lines₂ (RunState.ofDb db₁)
    (by simpa [RunState.ofDb] using hdb₁)]
  rfl

/-- Witness for C4: the run over `Journal.a.log` marked it processed;
running it again returns the database unchanged. -/
theorem claim_C4_witness :
    process_logs [] [("Journal.a.log", [Line.valid eDockA, Line.valid eBuyX5])]
        dbAfter = (dbAfter, none) :=
  (claim_C4_file_processed_once [] [] "Journal.a.log"
    [Line.valid eDockA, Line.valid eBuyX5] [Line.valid eDockA, Line.valid eBuyX5]
    init_db dbAfter rfl).2


theorem process_event_preserves_dock (colonized : List Int) (e : Event)
    (s s' : RunState) (h : process_event colonized e s = .ok s')
    (hk : e.event ≠ some "Docked") :
    s'.dockedStation = s.dockedStation := by
  obtain ⟨k, ts, hek, het, hc⟩ := process_event_inversion colonized e s s' h
  rcases hc with ⟨hkd, -⟩ | ⟨-, rfl⟩ | ⟨-, rfl⟩ | ⟨-, rfl⟩ | ⟨-, rfl⟩ | rfl
  · exact absurd (hkd ▸ hek) hk
  · exact (handle_market_buy_frame e ts s).1
  · exact (handle_market_sell_frame e ts s).1
  · exact (handle_cargo_depot_frame e ts s).1
  · exact (handle_cargo_frame colonized e ts s).1
  · rfl

theorem process_events_preserve_dock (colonized : List Int) (es : List Event) :
    ∀ (s s' : RunState), process_events colonized es s = .ok s' →
      (∀ e ∈ es, e.event ≠ some "Docked") →
      s'.dockedStation = s.dockedStation := by
  induction es with
  | nil =>
    intro s s' h _
    obtain rfl := (Except.ok.injEq _ _).mp h
    rfl
  | cons e es ih =>
    intro s s' h hnd
    unfold process_events at h
    cases hev : process_event colonized e s with
    | error msg =>
      rw [hev] at h
      exact Except.noConfusion (show Except.error msg = Except.ok s' from h)
    | ok s1 =>
      rw [hev] at h
      have h1 : s1.dockedStation = s.dockedStation :=
        process_event_preserves_dock colonized e s s1 hev
          (hnd e (List.mem_cons_self e es))
      have h2 : s'.dockedStation = s1.dockedStation :=
        ih s1 s' h (fun e' he' => hnd e' (List.mem_cons_of_mem e he'))
      exact h2.trans h1

/-- Claim C7: in a run whose events so far contain no Docked event, the
docking context is still `none`, and a MarketSell event then leaves every
purchase record unchanged (src/app.py lines 142-144 drop it). -/
theorem claim_C7_sell_without_docking_is_noop (colonized : List Int)
    (es : List Event) (e : Event) (db : Db) (s s' : RunState)
    (hes : process_events colonized es (RunState.ofDb db) = .ok s)
    (hnd : ∀ e' ∈ es, e'.event ≠ some "Docked")
    (hk : e.event = some "MarketSell")
    (h : process_event colonized e s = .ok s') :
    s'.purchases = s.purchases := by
  have hdock : s.dockedStation = none := by
    rw [process_events_preserve_dock colonized es (RunState.ofDb db) s hes hnd]
    rfl
  obtain ⟨k, ts, hek, het, hc⟩ := process_event_inversion colonized e s s' h
  have hkm : k = "MarketSell" := by
    rw [hk] at hek
    exact ((Option.some.injEq _ _).mp hek).symm
  subst hkm
  rcases hc with ⟨hkd, -⟩ | ⟨hkd, -⟩ | ⟨-, rfl⟩ | ⟨hkd, -⟩ | ⟨hkd, -⟩ | rfl
  · exact absurd hkd (by decide)
  · exact absurd hkd (by decide)
  · unfold handle_market_sell
    rw [hdock]
  · exact absurd hkd (by decide)
  · exact absurd hkd (by decide)
  · rfl

/-- Witness for C7: after a run prefix `[eCargo10]` over the database
holding one open purchase, `eSellX5` changes no purchase record. -/
theorem claim_C7_witness :
    ({ purchases := [pBoughtX5], nextId := 2, processedLogs := [],
       dockedStation := none, cargoCount := some 10 } : RunState).purchases =
    ({ purchases := [pBoughtX5], nextId := 2, processedLogs := [],
       dockedStation := none, cargoCount := some 10 } : RunState).purchases :=
  claim_C7_sell_without_docking_is_noop [] [eCargo10] eSellX5
    { purchases := [pBoughtX5], nextId := 2, processedLogs := [] }
    { purchases := [pBoughtX5], nextId := 2, processedLogs := [],
      dockedStation := none, cargoCount := some 10 }
    { purchases := [pBoughtX5], nextId := 2, processedLogs := [],
      dockedStation := none, cargoCount := some 10 }
    rfl (by decide) rfl rfl


/-- Claim C2: on a Cargo event the snapshot is always set to the report's
total (0 for a missing or unparseable report); exactly when that total is
zero, the previous snapshot was non-null and positive, a docking context
is active and the docked system's address is in the colonized set, every
open purchase is marked delivered at the current station with the event's
timestamp; otherwise the purchases are untouched. -/
theorem claim_C2_bulk_heuristic (colonized : List Int) (e : Event)
    (ts : String) (s s' : RunState)
    (hk : e.event = some "Cargo") (ht : e.timestamp = some ts)
    (h : process_event colonized e s = .ok s') :
    s'.cargoCount = some (new_total e) ∧
    s'.dockedStation = s.dockedStation ∧ s'.nextId = s.nextId ∧
    s'.processedLogs = s.processedLogs ∧
    (∀ d, s.dockedStation = some d →
      bulk_condition colonized s (new_total e) →
      s'.purchases = s.purchases.map
        (fun p => if is_open p then mark_delivered d.StationName ts p else p)) ∧
    (¬ bulk_condition colonized s (new_total e) →
      s'.purchases = s.purchases) := by
  rw [process_event_cargo_eq colonized e ts s hk ht] at h
  obtain rfl : s' = handle_cargo colonized e ts s := ((Except.ok.injEq _ _).mp h).symm
  refine ⟨rfl, (handle_cargo_frame colonized e ts s).1,
    (handle_cargo_frame colonized e ts s).2.2,
    (handle_cargo_frame colonized e ts s).2.1, ?_, ?_⟩
  · intro d hd hbc
    obtain ⟨h0, ⟨prev, hprev, hpos⟩, ⟨d', hd', hmem'⟩⟩ := hbc
    have hmem : d.SystemAddress ∈ colonized := by
      rw [hd] at hd'
      obtain rfl := (Option.some.injEq _ _).mp hd'
      exact hmem'
    unfold handle_cargo
    dsimp only
    rw [hprev, hd]
    have hcond : (get_total_cargo_count (parse_cargo_file e.cargoFile) == 0 &&
        decide (0 < prev) && colonized.contains d.SystemAddress) = true := by
      have h0' : get_total_cargo_count (parse_cargo_file e.cargoFile) = 0 := h0
      rw [h0']
      simp only [beq_self_eq_true, Bool.true_and, Bool.and_eq_true,
        decide_eq_true_eq]
      exact ⟨hpos, by simpa using hmem⟩
    dsimp only
    rw [if_pos hcond]
  · intro hnbc
    unfold handle_cargo
    dsimp only
    cases hprev : s.cargoCount with
    | none =>
      cases hd : s.dockedStation <;> rfl
    | some prev =>
      cases hd : s.dockedStation with
      | none => rfl
      | some d =>
        dsimp only
        rw [if_neg]
        intro hcond
        apply hnbc
        simp only [Bool.and_eq_true, beq_iff_eq, decide_eq_true_eq] at hcond
        refine ⟨hcond.1.1, ⟨prev, hprev, hcond.1.2⟩, ⟨d, hd, ?_⟩⟩
        simpa using hcond.2


theorem resolve_name_of_localised (loc : String) (raw : Option String)
    (h : loc ≠ "") : resolve_name (some loc) raw = loc := by
  unfold resolve_name pyOrStr pyTruthy
  simp [h]

theorem handle_market_buy_eq (e : Event) (ts : String) (s : RunState)
    (d : DockedStation) (hd : s.dockedStation = some d) :
    handle_market_buy e ts s =
      { s with purchases := s.purchases ++ [bought_record e ts d s.nextId],
               nextId := s.nextId + 1 } := by
  unfold handle_market_buy
  rw [hd]
  dsimp only
  rw [if_neg (fun hc => hc rfl)]

theorem handle_market_sell_eq (e : Event) (ts : String) (s : RunState)
    (d : DockedStation) (hd : s.dockedStation = some d) :
    handle_market_sell e ts s =
      { s with
        purchases := update_first
          (open_match (e.TypeRaw.getD "Unknown") (e.Count.getD 0))
          (mark_sold d.StationName ts) s.purchases } := by
  unfold handle_market_sell
  rw [hd]
  dsimp only
  rw [if_neg (fun hc => hc rfl)]

/-- Witness for C2: docked at A with snapshot 10 and system 100 colonized,
the zero-total Cargo event delivers the open purchase at A with the
event's timestamp. -/
theorem claim_C2_witness :
    sCargo0.purchases = sCargo10.purchases.map
      (fun p => if is_open p then mark_delivered "A" "t6" p else p) :=
  (claim_C2_bulk_heuristic [100] eCargo0 "t6" sCargo10 sCargo0
      rfl rfl rfl).2.2.2.2.1 dockA rfl
    ⟨rfl, ⟨10, rfl, by decide⟩, ⟨dockA, rfl, List.mem_singleton.mpr rfl⟩⟩

/-- Claim C3: in every reachable ledger state no record has both
disposition flags set, and any record with either flag set is returned
unchanged (same position, same contents) by every further step —
MarketSell, CargoDepot-Deliver, bulk heuristic, or any other event. -/
theorem claim_C3_terminal_records_immutable (s : RunState)
    (hr : Reachable s) :
    (∀ p ∈ s.purchases, ¬(p.delivered = true ∧ p.sold = true)) ∧
    (∀ s', Step s s' → ∀ i (hi : i < s.purchases.length),
      (s.purchases.get ⟨i, hi⟩).sold = true ∨
        (s.purchases.get ⟨i, hi⟩).delivered = true →
      s'.purchases[i]? = some (s.purchases.get ⟨i, hi⟩)) :=
  ⟨reachable_inv s hr,
   fun s' hs i hi ht => step_preserves_terminal s s' hs i hi ht⟩

/-- Witness for C3: the reachable state with one sold purchase keeps it
unchanged across a CargoDepot-Deliver step that would otherwise match its
item and count. -/
theorem claim_C3_witness :
    sSoldA.purchases[0]? = some (mark_sold "A" "t4" pBoughtX5) := by
  have hreach : Reachable sSoldA := by
    have h1 : Step initRun sDock0 := Step.event [] eDockA _ _ rfl
    have h2 : Step sDock0 sBought := Step.event [] eBuyX5 _ _ rfl
    have h3 : Step sBought sSoldA := Step.event [] eSellX5 _ _ rfl
    exact Relation.ReflTransGen.tail
      (Relation.ReflTransGen.tail
        (Relation.ReflTransGen.tail Relation.ReflTransGen.refl h1) h2) h3
  exact (claim_C3_terminal_records_immutable sSoldA hreach).2 sSoldA
    (Step.event [] eDepotX5 _ _ rfl) 0 (by decide) (Or.inl rfl)

/-- Claim C10: the MarketSell transition matches on the raw Type field
(default "Unknown") with no localized fallback, while insertion prefers
Type_Localised; hence a purchase stored under a localized name that
differs from the raw type is never matched by a MarketSell carrying that
raw type. -/
theorem claim_C10_localised_purchase_never_sold (colonized : List Int)
    (eb es' : Event) (tsb : String) (s s' : RunState) (d : DockedStation)
    (loc raw : String)
    (hd : s.dockedStation = some d)
    (hloc : eb.Type_Localised = some loc) (hloc0 : loc ≠ "")
    (hne : loc ≠ raw)
    (hks : es'.event = some "MarketSell") (hraws : es'.TypeRaw = some raw)
    (h : process_event colonized es' (handle_market_buy eb tsb s) = .ok s') :
    (∀ (ev : Event) (tsv : String) (sv : RunState) (dv : DockedStation),
      sv.dockedStation = some dv →
      (handle_market_sell ev tsv sv).purchases =
        update_first (open_match (ev.TypeRaw.getD "Unknown") (ev.Count.getD 0))
          (mark_sold dv.StationName tsv) sv.purchases) ∧
    ((handle_market_buy eb tsb s).purchases[s.purchases.length]?.map
        Purchase.item) = some loc ∧
    s'.purchases[s.purchases.length]? =
      (handle_market_buy eb tsb s).purchases[s.purchases.length]? := by
  have hitem : (bought_record eb tsb d s.nextId).item = loc := by
    unfold bought_record
    rw [hloc]
    exact resolve_name_of_localised loc eb.TypeRaw hloc0
  have hbuy := handle_market_buy_eq eb tsb s d hd
  refine ⟨fun ev tsv sv dv hdv =>
    by rw [handle_market_sell_eq ev tsv sv dv hdv], ?_, ?_⟩
  · rw [hbuy]
    dsimp only
    rw [List.getElem?_concat_length]
    simp [hitem]
  · obtain ⟨k, ts1, hek, het, hc⟩ :=
      process_event_inversion colonized es' (handle_market_buy eb tsb s) s' h
    have hkm : k = "MarketSell" := by
      rw [hks] at hek
      exact ((Option.some.injEq _ _).mp hek).symm
    subst hkm
    rcases hc with ⟨hkd, -⟩ | ⟨hkd, -⟩ | ⟨-, rfl⟩ | ⟨hkd, -⟩ | ⟨hkd, -⟩ | rfl
    · exact absurd hkd (by decide)
    · exact absurd hkd (by decide)
    · have hd1 : (handle_market_buy eb tsb s).dockedStation = some d := by
        rw [hbuy]
        exact hd
      rw [handle_market_sell_eq es' ts1 _ d hd1]
      dsimp only
      rw [hbuy]
      dsimp only
      have hi : s.purchases.length <
          (s.purchases ++ [bought_record eb tsb d s.nextId]).length := by
        simp
      have hget : (s.purchases ++ [bought_record eb tsb d s.nextId]).get
          ⟨s.purchases.length, hi⟩ = bought_record eb tsb d s.nextId := by
        simp [List.getElem_concat_length]
      have hpred : open_match (es'.TypeRaw.getD "Unknown") (es'.Count.getD 0)
          ((s.purchases ++ [bought_record eb tsb d s.nextId]).get
            ⟨s.purchases.length, hi⟩) = false := by
        rw [hget, hraws]
        simp only [open_match, Option.getD_some]
        have : (bought_record eb tsb d s.nextId).item ≠ raw := by
          rw [hitem]
          exact hne
        simp [this]
      rw [update_first_getElem?_of_pred_false _ _ _ _ hi hpred, hget,
        List.getElem?_concat_length]
    · exact absurd hkd (by decide)
    · exact absurd hkd (by decide)
    · rfl


/-- Witness for C10: the purchase stored as "Gold" (from Type_Localised)
is untouched by a MarketSell carrying the raw type "gold". -/
theorem claim_C10_witness :
    ((handle_market_buy eBuyLoc "t8" sDock0).purchases[(0 : Nat)]?.map
        Purchase.item) = some "Gold" ∧
    sGold.purchases[(0 : Nat)]? =
      (handle_market_buy eBuyLoc "t8" sDock0).purchases[(0 : Nat)]? :=
  (claim_C10_localised_purchase_never_sold [] eBuyLoc eSellGold "t8" sDock0
    sGold dockA "Gold" "gold" rfl rfl (by decide) (by decide)
    rfl rfl rfl).2

end EliteTracker
